import Mathlib

/-!
Verification of `h2o-py/h2o/transforms/decomposition.py` (classes `H2OPCA`
and `H2OSVD`) and of the test file
`h2o-py/tests/testdir_apis/H2O_Module/pyunit_h2omake_metrics.py`,
as a shallow embedding in Lean 4.

Python values that appear as constructor arguments are embedded as `PyVal`;
the `_parms` dictionary is an insertion-ordered association list `PyDict`
with Python-dict lookup and assignment semantics.
-/

/-- A Python value as used by the constructors of `H2OPCA` / `H2OSVD`:
`None`, booleans, integers, strings, tuples (of strings — all tuples in
this module are tuples of string literals), and opaque objects such as
`self`. -/
inductive PyVal where
  | none
  | bool (b : Bool)
  | int (n : Int)
  | str (s : String)
  | tuple (elems : List String)
  | obj (id : Nat)
deriving DecidableEq, Repr

/-- Python's `isinstance(v, tuple)`. -/
def PyVal.isTuple : PyVal → Bool
  | .tuple _ => true
  | _ => false

/-- The first element of a tuple value, when there is one. -/
def PyVal.tupleFirst : PyVal → Option String
  | .tuple (e :: _) => some e
  | _ => Option.none

/-- A Python dictionary with string keys, as an insertion-ordered
association list (our dictionaries never hold a key twice). -/
abbrev PyDict := List (String × PyVal)

/-- Python dict lookup `d[key]` (as an `Option`). -/
def dictGet (d : PyDict) (key : String) : Option PyVal :=
  match d with
  | [] => Option.none
  | (k, v) :: rest => if k = key then some v else dictGet rest key

/-- Python dict assignment `d[key] = v`: updates the entry in place when the
key is present, appends it at the end otherwise. -/
def dictSet (d : PyDict) (key : String) (v : PyVal) : PyDict :=
  if d.any (fun kv => kv.1 = key) then
    d.map (fun kv => if kv.1 = key then (key, v) else kv)
  else d ++ [(key, v)]

/-- The keys of a dictionary, in insertion order. -/
def dictKeys (d : PyDict) : List String := d.map Prod.fst

namespace H2OPCA

/-- The constructor keyword parameters of `H2OPCA.__init__`, in order. -/
def paramNames : List String :=
  ["model_id", "k", "max_iterations", "seed", "transform",
   "use_all_factor_levels", "pca_method", "ignore_const_cols", "impute_missing"]

/-- The default value of the `transform` parameter of `H2OPCA.__init__`:
`("NONE", "DEMEAN", "DESCALE", "STANDARDIZE", "NORMALIZE")`. -/
def transformDefault : PyVal :=
  .tuple ["NONE", "DEMEAN", "DESCALE", "STANDARDIZE", "NORMALIZE"]

/-- The default value of the `pca_method` parameter of `H2OPCA.__init__`:
`("GramSVD", "Power", "GLRM")`. -/
def pcaMethodDefault : PyVal := .tuple ["GramSVD", "Power", "GLRM"]

/-- Result of `locals()` at the top of `H2OPCA.__init__`: the binding `self` followed
by the nine keyword parameters. -/
def localsSnapshot (self model_id k max_iterations seed transform
    use_all_factor_levels pca_method ignore_const_cols impute_missing : PyVal) :
    PyDict :=
  [("self", self), ("model_id", model_id), ("k", k),
   ("max_iterations", max_iterations), ("seed", seed),
   ("transform", transform), ("use_all_factor_levels", use_all_factor_levels),
   ("pca_method", pca_method), ("ignore_const_cols", ignore_const_cols),
   ("impute_missing", impute_missing)]

/-- The plain copy of the constructor keywords: what
`{k: v for k, v in self._parms.items() if k != "self"}` yields. -/
def suppliedKeywords (model_id k max_iterations seed transform
    use_all_factor_levels pca_method ignore_const_cols impute_missing : PyVal) :
    PyDict :=
  [("model_id", model_id), ("k", k),
   ("max_iterations", max_iterations), ("seed", seed),
   ("transform", transform), ("use_all_factor_levels", use_all_factor_levels),
   ("pca_method", pca_method), ("ignore_const_cols", ignore_const_cols),
   ("impute_missing", impute_missing)]

/-- The `_parms` dictionary built by `H2OPCA.__init__`:
```
self._parms = locals()
self._parms = {k: v for k, v in self._parms.items() if k != "self"}
self._parms["pca_method"] = "GramSVD" if isinstance(pca_method, tuple) else pca_method
self._parms["transform"] = "NONE" if isinstance(transform, tuple) else transform
``` -/
def init (model_id k max_iterations seed transform use_all_factor_levels
    pca_method ignore_const_cols impute_missing : PyVal) : PyDict :=
  let parms0 := localsSnapshot (.obj 0) model_id k max_iterations seed transform
    use_all_factor_levels pca_method ignore_const_cols impute_missing
  let parms1 := parms0.filter (fun kv => kv.1 ≠ "self")
  let parms2 := dictSet parms1 "pca_method"
    (if pca_method.isTuple then .str "GramSVD" else pca_method)
  dictSet parms2 "transform"
    (if transform.isTuple then .str "NONE" else transform)

/-- Construction `H2OPCA()` with every parameter left at its default. -/
def initDefaults : PyDict :=
  init .none .none .none .none transformDefault (.bool false)
    pcaMethodDefault (.bool true) (.bool false)

end H2OPCA

namespace H2OSVD

/-- The constructor keyword parameters of `H2OSVD.__init__`, in order. -/
def paramNames : List String :=
  ["nv", "max_iterations", "transform", "seed", "use_all_factor_levels",
   "svd_method"]

/-- Result of `locals()` at the top of `H2OSVD.__init__`. -/
def localsSnapshot (self nv max_iterations transform seed
    use_all_factor_levels svd_method : PyVal) : PyDict :=
  [("self", self), ("nv", nv), ("max_iterations", max_iterations),
   ("transform", transform), ("seed", seed),
   ("use_all_factor_levels", use_all_factor_levels),
   ("svd_method", svd_method)]

/-- The plain copy of the constructor keywords of `H2OSVD.__init__`. -/
def suppliedKeywords (nv max_iterations transform seed
    use_all_factor_levels svd_method : PyVal) : PyDict :=
  [("nv", nv), ("max_iterations", max_iterations),
   ("transform", transform), ("seed", seed),
   ("use_all_factor_levels", use_all_factor_levels),
   ("svd_method", svd_method)]

/-- The `_parms` dictionary built by `H2OSVD.__init__`:
```
self._parms = locals()
self._parms = {k: v for k, v in self._parms.items() if k != "self"}
self._parms["svd_method"] = "GramSVD" if isinstance(svd_method, tuple) else svd_method
self._parms["transform"] = "NONE" if isinstance(transform, tuple) else transform
self._parms['_rest_version'] = 99
``` -/
def init (nv max_iterations transform seed use_all_factor_levels
    svd_method : PyVal) : PyDict :=
  let parms0 := localsSnapshot (.obj 0) nv max_iterations transform seed
    use_all_factor_levels svd_method
  let parms1 := parms0.filter (fun kv => kv.1 ≠ "self")
  let parms2 := dictSet parms1 "svd_method"
    (if svd_method.isTuple then .str "GramSVD" else svd_method)
  let parms3 := dictSet parms2 "transform"
    (if transform.isTuple then .str "NONE" else transform)
  dictSet parms3 "_rest_version" (.int 99)

/-- Construction `H2OSVD()` with every parameter left at its default (`None`). -/
def initDefaults : PyDict :=
  init .none .none .none .none .none .none

end H2OSVD

/-- An opaque handle to a server-side frame identifier. -/
abbrev Frame := Nat

/-- An opaque handle to a server-side model. -/
abbrev Model := Nat

/-- Modelled from the spec: the shared base class `H2OEstimator` is "a shared
base class not included in this excerpt" whose `fit` and `predict` issue
train/predict REST calls; here its two methods are abstract operations on
opaque model and frame handles. -/
structure H2OEstimatorBase where
  fit : Model → Frame → Model
  predict : Model → Frame → Frame

/-- Body of `H2OPCA.fit(self, X, y=None, **params)`:
`return super(H2OPCA, self).fit(X)`. -/
def H2OPCA.fit (base : H2OEstimatorBase) (self : Model) (X : Frame)
    (y : Option Frame) (params : PyDict) : Model :=
  base.fit self X

/-- Body of `H2OPCA.transform(self, X, y=None, **params)`:
`return self.predict(X)`. -/
def H2OPCA.transform (base : H2OEstimatorBase) (self : Model) (X : Frame)
    (y : Option Frame) (params : PyDict) : Frame :=
  base.predict self X

/-- Body of `H2OSVD.fit(self, X, y=None, **params)`:
`return super(H2OSVD, self).fit(X)`. -/
def H2OSVD.fit (base : H2OEstimatorBase) (self : Model) (X : Frame)
    (y : Option Frame) (params : PyDict) : Model :=
  base.fit self X

/-- Body of `H2OSVD.transform(self, X, y=None, **params)`:
`return self.predict(X)`. -/
def H2OSVD.transform (base : H2OEstimatorBase) (self : Model) (X : Frame)
    (y : Option Frame) (params : PyDict) : Frame :=
  base.predict self X

/-- A Python exception of the `Exception` hierarchy (the class caught by the
test's `except Exception as e`), with its message and whether it is an
`AssertionError`. -/
structure PyException where
  message : String
  isAssertionError : Bool
deriving DecidableEq, Repr

/-- The message of the `assert False, "..."` in the test's `except` clause. -/
def makeMetricsFailureMsg : String := "h2o.make_metrics() command not is working."

/-- The test function `h2omake_metrics` of
`pyunit_h2omake_metrics.py`: a `try` block (import, training, metrics and
assertion steps, all against a live cluster, abstracted here as the outcome
`tryBody`) followed by
`except Exception as e: assert False, "h2o.make_metrics() command not is working."`.
The `assert False, msg` raises an `AssertionError` carrying `msg`. -/
def h2omake_metrics (tryBody : Except PyException Unit) :
    Except PyException Unit :=
  match tryBody with
  | Except.ok _ => Except.ok ()
  | Except.error _ =>
      Except.error { message := makeMetricsFailureMsg, isAssertionError := true }

/- Association-list lemmas used to reason about `__init__`. -/

theorem dictGet_map_update_self (d : PyDict) (key : String) (v : PyVal)
    (hmem : d.any (fun kv => kv.1 = key) = true) :
    dictGet (d.map (fun kv => if kv.1 = key then (key, v) else kv)) key
      = some v := by
  induction d with
  | nil => simp at hmem
  | cons kv rest ih =>
    simp only [List.any_cons, Bool.or_eq_true, decide_eq_true_eq] at hmem
    simp only [List.map_cons]
    by_cases hk : kv.1 = key
    · rw [if_pos hk]
      simp [dictGet]
    · rw [if_neg hk]
      simp [dictGet, hk, ih (hmem.resolve_left hk)]

theorem dictGet_map_update_other (d : PyDict) (key key' : String) (v : PyVal)
    (h : key ≠ key') :
    dictGet (d.map (fun kv => if kv.1 = key then (key, v) else kv)) key'
      = dictGet d key' := by
  induction d with
  | nil => simp [dictGet]
  | cons kv rest ih =>
    simp only [List.map_cons]
    by_cases hk : kv.1 = key
    · rw [if_pos hk]
      simp [dictGet, h, hk, ih]
    · rw [if_neg hk]
      simp [dictGet, ih]

theorem dictGet_append_single_same (d : PyDict) (key : String) (v : PyVal)
    (hmem : d.any (fun kv => kv.1 = key) = false) :
    dictGet (d ++ [(key, v)]) key = some v := by
  induction d with
  | nil => simp [dictGet]
  | cons kv rest ih =>
    simp only [List.any_cons, Bool.or_eq_false_iff, decide_eq_false_iff_not]
      at hmem
    simp [dictGet, hmem.1, ih hmem.2]

theorem dictGet_append_single_other (d : PyDict) (key key' : String)
    (v : PyVal) (h : key ≠ key') :
    dictGet (d ++ [(key, v)]) key' = dictGet d key' := by
  induction d with
  | nil => simp [dictGet, h]
  | cons kv rest ih =>
    by_cases hk : kv.1 = key'
    · simp [dictGet, hk]
    · simp [dictGet, hk, ih]

theorem dictGet_dictSet_same (d : PyDict) (key : String) (v : PyVal) :
    dictGet (dictSet d key v) key = some v := by
  by_cases hmem : (d.any (fun kv => kv.1 = key)) = true
  · unfold dictSet
    rw [if_pos hmem]
    exact dictGet_map_update_self d key v hmem
  · unfold dictSet
    rw [if_neg hmem]
    exact dictGet_append_single_same d key v
      (by simp only [Bool.not_eq_true] at hmem; exact hmem)

theorem dictGet_dictSet_other (d : PyDict) (key key' : String) (v : PyVal)
    (h : key ≠ key') : dictGet (dictSet d key v) key' = dictGet d key' := by
  by_cases hmem : (d.any (fun kv => kv.1 = key)) = true
  · unfold dictSet
    rw [if_pos hmem]
    exact dictGet_map_update_other d key key' v h
  · unfold dictSet
    rw [if_neg hmem]
    exact dictGet_append_single_other d key key' v h

theorem dictKeys_map_update (d : PyDict) (key : String) (v : PyVal) :
    dictKeys (d.map (fun kv => if kv.1 = key then (key, v) else kv))
      = dictKeys d := by
  induction d with
  | nil => rfl
  | cons kv rest ih =>
    simp only [List.map_cons]
    by_cases hk : kv.1 = key
    · rw [if_pos hk]
      simp only [dictKeys, List.map_cons] at ih ⊢
      simp [ih, hk]
    · rw [if_neg hk]
      simp only [dictKeys, List.map_cons] at ih ⊢
      simp [ih]

theorem dictKeys_dictSet_present (d : PyDict) (key : String) (v : PyVal)
    (hmem : d.any (fun kv => kv.1 = key) = true) :
    dictKeys (dictSet d key v) = dictKeys d := by
  unfold dictSet
  rw [if_pos hmem]
  exact dictKeys_map_update d key v

theorem dictKeys_dictSet_absent (d : PyDict) (key : String) (v : PyVal)
    (hmem : d.any (fun kv => kv.1 = key) = false) :
    dictKeys (dictSet d key v) = dictKeys d ++ [key] := by
  unfold dictSet
  rw [if_neg (by simp [hmem])]
  simp [dictKeys]

/- Unfolding lemmas: each `__init__` is the plain keyword copy followed by
Python dict assignments. -/

theorem pca_init_eq (m k mi s t u p ic im : PyVal) :
    H2OPCA.init m k mi s t u p ic im
      = dictSet (dictSet (H2OPCA.suppliedKeywords m k mi s t u p ic im)
          "pca_method" (if p.isTuple then PyVal.str "GramSVD" else p))
          "transform" (if t.isTuple then PyVal.str "NONE" else t) := rfl

theorem svd_init_eq (nv mi t s u sm : PyVal) :
    H2OSVD.init nv mi t s u sm
      = dictSet (dictSet (dictSet (H2OSVD.suppliedKeywords nv mi t s u sm)
          "svd_method" (if sm.isTuple then PyVal.str "GramSVD" else sm))
          "transform" (if t.isTuple then PyVal.str "NONE" else t))
          "_rest_version" (PyVal.int 99) := rfl

theorem pca_keys_init (m k mi s t u p ic im : PyVal) :
    dictKeys (H2OPCA.init m k mi s t u p ic im) = H2OPCA.paramNames := rfl

theorem svd_keys_init (nv mi t s u sm : PyVal) :
    dictKeys (H2OSVD.init nv mi t s u sm)
      = H2OSVD.paramNames ++ ["_rest_version"] := rfl

theorem pca_get_pca_method (m k mi s t u p ic im : PyVal) :
    dictGet (H2OPCA.init m k mi s t u p ic im) "pca_method"
      = some (if p.isTuple then PyVal.str "GramSVD" else p) := rfl

theorem pca_get_transform (m k mi s t u p ic im : PyVal) :
    dictGet (H2OPCA.init m k mi s t u p ic im) "transform"
      = some (if t.isTuple then PyVal.str "NONE" else t) := rfl

theorem svd_get_svd_method (nv mi t s u sm : PyVal) :
    dictGet (H2OSVD.init nv mi t s u sm) "svd_method"
      = some (if sm.isTuple then PyVal.str "GramSVD" else sm) := rfl

theorem svd_get_transform (nv mi t s u sm : PyVal) :
    dictGet (H2OSVD.init nv mi t s u sm) "transform"
      = some (if t.isTuple then PyVal.str "NONE" else t) := rfl

theorem pca_supplied_get_transform (m k mi s t u p ic im : PyVal) :
    dictGet (H2OPCA.suppliedKeywords m k mi s t u p ic im) "transform"
      = some t := rfl

theorem pca_supplied_get_pca_method (m k mi s t u p ic im : PyVal) :
    dictGet (H2OPCA.suppliedKeywords m k mi s t u p ic im) "pca_method"
      = some p := rfl

theorem svd_supplied_get_transform (nv mi t s u sm : PyVal) :
    dictGet (H2OSVD.suppliedKeywords nv mi t s u sm) "transform"
      = some t := rfl

theorem svd_supplied_get_svd_method (nv mi t s u sm : PyVal) :
    dictGet (H2OSVD.suppliedKeywords nv mi t s u sm) "svd_method"
      = some sm := rfl

theorem svd_supplied_get_rest_version (nv mi t s u sm : PyVal) :
    dictGet (H2OSVD.suppliedKeywords nv mi t s u sm) "_rest_version"
      = Option.none := rfl

/-- A value of the shape `if isinstance(x, tuple) then "<fixed>" else x` is
never itself a tuple. -/
theorem isTuple_normalize (x : PyVal) (sub : String) :
    PyVal.isTuple (if x.isTuple then PyVal.str sub else x) = false := by
  cases hx : x.isTuple
  · simp [hx]
  · simp [PyVal.isTuple]

/-- C1 (corrected): as stated the claim fails — `H2OSVD.__init__` also adds
the key `_rest_version` (value `99`), which is not a constructor keyword.
This counterexample exhibits it on `H2OSVD()` built with all defaults. -/
theorem c1_svd_adds_rest_version_counterexample :
    "_rest_version" ∈ dictKeys H2OSVD.initDefaults
      ∧ "_rest_version" ∉ H2OSVD.paramNames := by decide

/-- C1 (amended): for every `H2OPCA` and `H2OSVD` instance, `__init__` builds
`_parms` by copying the constructor keywords, changing no key other than the
default-substitution of the tuple-typed defaults (`pca_method`/`svd_method`
and `transform`) into a single chosen string value — except that
`H2OSVD.__init__` additionally adds the key `_rest_version` with value `99`. -/
theorem c1_init_only_substitutes_tuple_defaults
    (m k mi s t u p ic im nv mi2 t2 s2 u2 sm : PyVal) (key : String)
    (h1 : key ≠ "pca_method") (h2 : key ≠ "svd_method")
    (h3 : key ≠ "transform") (h4 : key ≠ "_rest_version") :
    dictGet (H2OPCA.init m k mi s t u p ic im) key
        = dictGet (H2OPCA.suppliedKeywords m k mi s t u p ic im) key
    ∧ dictGet (H2OSVD.init nv mi2 t2 s2 u2 sm) key
        = dictGet (H2OSVD.suppliedKeywords nv mi2 t2 s2 u2 sm) key
    ∧ dictGet (H2OPCA.init m k mi s t u p ic im) "pca_method"
        = some (if p.isTuple then PyVal.str "GramSVD" else p)
    ∧ dictGet (H2OPCA.init m k mi s t u p ic im) "transform"
        = some (if t.isTuple then PyVal.str "NONE" else t)
    ∧ dictGet (H2OSVD.init nv mi2 t2 s2 u2 sm) "svd_method"
        = some (if sm.isTuple then PyVal.str "GramSVD" else sm)
    ∧ dictGet (H2OSVD.init nv mi2 t2 s2 u2 sm) "transform"
        = some (if t2.isTuple then PyVal.str "NONE" else t2) := by
  refine ⟨?_, ?_, pca_get_pca_method m k mi s t u p ic im,
    pca_get_transform m k mi s t u p ic im,
    svd_get_svd_method nv mi2 t2 s2 u2 sm,
    svd_get_transform nv mi2 t2 s2 u2 sm⟩
  · rw [pca_init_eq, dictGet_dictSet_other _ _ _ _ (Ne.symm h3),
      dictGet_dictSet_other _ _ _ _ (Ne.symm h1)]
  · rw [svd_init_eq, dictGet_dictSet_other _ _ _ _ (Ne.symm h4),
      dictGet_dictSet_other _ _ _ _ (Ne.symm h3),
      dictGet_dictSet_other _ _ _ _ (Ne.symm h2)]

/-- Witness for C1: the key `seed` of an `H2OPCA` built with a concrete
model id and seed is the supplied value, untouched by `__init__`. -/
theorem c1_init_only_substitutes_tuple_defaults_witness :
    dictGet (H2OPCA.init (PyVal.str "m") PyVal.none PyVal.none (PyVal.int 42)
        H2OPCA.transformDefault (PyVal.bool false) H2OPCA.pcaMethodDefault
        (PyVal.bool true) (PyVal.bool false)) "seed"
      = dictGet (H2OPCA.suppliedKeywords (PyVal.str "m") PyVal.none PyVal.none
        (PyVal.int 42) H2OPCA.transformDefault (PyVal.bool false)
        H2OPCA.pcaMethodDefault (PyVal.bool true) (PyVal.bool false)) "seed" :=
  (c1_init_only_substitutes_tuple_defaults (PyVal.str "m") PyVal.none
    PyVal.none (PyVal.int 42) H2OPCA.transformDefault (PyVal.bool false)
    H2OPCA.pcaMethodDefault (PyVal.bool true) (PyVal.bool false)
    PyVal.none PyVal.none PyVal.none PyVal.none PyVal.none PyVal.none
    "seed" (by decide) (by decide) (by decide) (by decide)).1

/-- C2: whenever a tuple is passed as `pca_method`, `svd_method` or
`transform`, the value stored under that key is the first element of the
tuple-valued default of the corresponding option (`"GramSVD"` for the method
options, `"NONE"` for `transform`). -/
theorem c2_tuple_arg_stored_as_first_of_default
    (m k mi s t u p ic im nv mi2 t2 s2 u2 sm : PyVal)
    (hp : p.isTuple = true) (ht : t.isTuple = true)
    (hsm : sm.isTuple = true) (ht2 : t2.isTuple = true) :
    dictGet (H2OPCA.init m k mi s t u p ic im) "pca_method"
        = some (PyVal.str "GramSVD")
    ∧ dictGet (H2OPCA.init m k mi s t u p ic im) "transform"
        = some (PyVal.str "NONE")
    ∧ dictGet (H2OSVD.init nv mi2 t2 s2 u2 sm) "svd_method"
        = some (PyVal.str "GramSVD")
    ∧ dictGet (H2OSVD.init nv mi2 t2 s2 u2 sm) "transform"
        = some (PyVal.str "NONE")
    ∧ PyVal.tupleFirst H2OPCA.pcaMethodDefault = some "GramSVD"
    ∧ PyVal.tupleFirst H2OPCA.transformDefault = some "NONE" := by
  refine ⟨?_, ?_, ?_, ?_, rfl, rfl⟩
  · simp [pca_get_pca_method, hp]
  · simp [pca_get_transform, ht]
  · simp [svd_get_svd_method, hsm]
  · simp [svd_get_transform, ht2]

/-- Witness for C2: passing the default tuples themselves stores
`"GramSVD"` under `pca_method`. -/
theorem c2_tuple_arg_stored_as_first_of_default_witness :
    dictGet (H2OPCA.init PyVal.none PyVal.none PyVal.none PyVal.none
        H2OPCA.transformDefault (PyVal.bool false) H2OPCA.pcaMethodDefault
        (PyVal.bool true) (PyVal.bool false)) "pca_method"
      = some (PyVal.str "GramSVD") :=
  (c2_tuple_arg_stored_as_first_of_default PyVal.none PyVal.none PyVal.none
    PyVal.none H2OPCA.transformDefault (PyVal.bool false)
    H2OPCA.pcaMethodDefault (PyVal.bool true) (PyVal.bool false)
    PyVal.none PyVal.none (PyVal.tuple ["NONE"]) PyVal.none PyVal.none
    (PyVal.tuple ["GramSVD", "Power", "Randomized"])
    (by decide) (by decide) (by decide) (by decide)).1

/-- C3: every constructor keyword supplied with a non-tuple value is stored
in `_parms` under its own name unchanged, for both `H2OPCA` and `H2OSVD`. -/
theorem c3_nontuple_supplied_values_stored_unchanged
    (m k mi s t u p ic im nv mi2 t2 s2 u2 sm : PyVal)
    (key1 key2 : String) (v w : PyVal)
    (hv : dictGet (H2OPCA.suppliedKeywords m k mi s t u p ic im) key1 = some v)
    (hvt : v.isTuple = false)
    (hw : dictGet (H2OSVD.suppliedKeywords nv mi2 t2 s2 u2 sm) key2 = some w)
    (hwt : w.isTuple = false) :
    dictGet (H2OPCA.init m k mi s t u p ic im) key1 = some v
    ∧ dictGet (H2OSVD.init nv mi2 t2 s2 u2 sm) key2 = some w := by
  constructor
  · by_cases h3 : key1 = "transform"
    · subst h3
      rw [pca_supplied_get_transform] at hv
      injection hv with hv
      subst hv
      simp [pca_get_transform, hvt]
    · by_cases h1 : key1 = "pca_method"
      · subst h1
        rw [pca_supplied_get_pca_method] at hv
        injection hv with hv
        subst hv
        simp [pca_get_pca_method, hvt]
      · rw [pca_init_eq, dictGet_dictSet_other _ _ _ _ (Ne.symm h3),
          dictGet_dictSet_other _ _ _ _ (Ne.symm h1)]
        exact hv
  · by_cases h3 : key2 = "transform"
    · subst h3
      rw [svd_supplied_get_transform] at hw
      injection hw with hw
      subst hw
      simp [svd_get_transform, hwt]
    · by_cases h2 : key2 = "svd_method"
      · subst h2
        rw [svd_supplied_get_svd_method] at hw
        injection hw with hw
        subst hw
        simp [svd_get_svd_method, hwt]
      · by_cases h4 : key2 = "_rest_version"
        · subst h4
          rw [svd_supplied_get_rest_version] at hw
          exact absurd hw (by simp)
        · rw [svd_init_eq, dictGet_dictSet_other _ _ _ _ (Ne.symm h4),
            dictGet_dictSet_other _ _ _ _ (Ne.symm h3),
            dictGet_dictSet_other _ _ _ _ (Ne.symm h2)]
          exact hw

/-- Witness for C3: the integer `5` passed as `k` to `H2OPCA` and as `nv` to
`H2OSVD` is stored unchanged. -/
theorem c3_nontuple_supplied_values_stored_unchanged_witness :
    dictGet (H2OPCA.init PyVal.none (PyVal.int 5) PyVal.none PyVal.none
        H2OPCA.transformDefault (PyVal.bool false) H2OPCA.pcaMethodDefault
        (PyVal.bool true) (PyVal.bool false)) "k" = some (PyVal.int 5)
    ∧ dictGet (H2OSVD.init (PyVal.int 5) PyVal.none PyVal.none PyVal.none
        PyVal.none PyVal.none) "nv" = some (PyVal.int 5) :=
  c3_nontuple_supplied_values_stored_unchanged PyVal.none (PyVal.int 5)
    PyVal.none PyVal.none H2OPCA.transformDefault (PyVal.bool false)
    H2OPCA.pcaMethodDefault (PyVal.bool true) (PyVal.bool false)
    (PyVal.int 5) PyVal.none PyVal.none PyVal.none PyVal.none PyVal.none
    "k" "nv" (PyVal.int 5) (PyVal.int 5)
    (by decide) (by decide) (by decide) (by decide)

/-- C4 (corrected): as stated the claim fails for `H2OSVD` — beside the six
constructor keywords, `_parms` also holds the key `_rest_version`. Concrete
input: `H2OSVD(nv=5)`. -/
theorem c4_svd_key_set_counterexample :
    "_rest_version" ∈ dictKeys (H2OSVD.init (PyVal.int 5) PyVal.none
        PyVal.none PyVal.none PyVal.none PyVal.none)
      ∧ "_rest_version" ∉ H2OSVD.paramNames := by decide

/-- C4 (amended): for every argument values, the key list of an `H2OPCA`
instance's `_parms` is exactly its nine constructor keywords, and that of an
`H2OSVD` instance is exactly its six constructor keywords followed by
`_rest_version` — fixed sets, independent of the argument values. -/
theorem c4_fixed_key_sets
    (m k mi s t u p ic im nv mi2 t2 s2 u2 sm : PyVal) :
    dictKeys (H2OPCA.init m k mi s t u p ic im) = H2OPCA.paramNames
    ∧ dictKeys (H2OSVD.init nv mi2 t2 s2 u2 sm)
        = H2OSVD.paramNames ++ ["_rest_version"] :=
  ⟨pca_keys_init m k mi s t u p ic im, svd_keys_init nv mi2 t2 s2 u2 sm⟩

/-- C5: `H2OPCA.transform` and `H2OSVD.transform` return exactly
`self.predict(X)`, ignoring `y` and `params`. -/
theorem c5_transform_is_pure_predict_passthrough
    (base : H2OEstimatorBase) (self : Model) (X : Frame)
    (y y' : Option Frame) (params params' : PyDict) :
    H2OPCA.transform base self X y params = base.predict self X
    ∧ H2OSVD.transform base self X y params = base.predict self X
    ∧ H2OPCA.transform base self X y params
        = H2OPCA.transform base self X y' params'
    ∧ H2OSVD.transform base self X y params
        = H2OSVD.transform base self X y' params' :=
  ⟨rfl, rfl, rfl, rfl⟩

/-- C6: `H2OPCA.fit` and `H2OSVD.fit` delegate to the base class `fit` with
only `X` as argument, so the result does not depend on `y` or `params`. -/
theorem c6_fit_delegates_with_only_X
    (base : H2OEstimatorBase) (self : Model) (X : Frame)
    (y y' : Option Frame) (params params' : PyDict) :
    H2OPCA.fit base self X y params = base.fit self X
    ∧ H2OSVD.fit base self X y params = base.fit self X
    ∧ H2OPCA.fit base self X y params = H2OPCA.fit base self X y' params'
    ∧ H2OSVD.fit base self X y params = H2OSVD.fit base self X y' params' :=
  ⟨rfl, rfl, rfl, rfl⟩

/-- C7: every exception raised inside the `try` body of `h2omake_metrics`
is caught and converted into an `AssertionError` carrying the message
`"h2o.make_metrics() command not is working."`. -/
theorem c7_broad_exception_becomes_fixed_assertion_failure
    (e : PyException) :
    h2omake_metrics (Except.error e)
      = Except.error { message := makeMetricsFailureMsg,
                       isAssertionError := true }
    ∧ makeMetricsFailureMsg = "h2o.make_metrics() command not is working." :=
  ⟨rfl, rfl⟩

/-- C8: after every `H2OSVD.__init__`, `_parms` maps `_rest_version` to the
integer `99`, a key that is not a constructor parameter; `H2OPCA.__init__`
never adds such a key. -/
theorem c8_svd_rest_version_pca_none
    (m k mi s t u p ic im nv mi2 t2 s2 u2 sm : PyVal) :
    dictGet (H2OSVD.init nv mi2 t2 s2 u2 sm) "_rest_version"
        = some (PyVal.int 99)
    ∧ "_rest_version" ∉ H2OSVD.paramNames
    ∧ dictGet (H2OPCA.init m k mi s t u p ic im) "_rest_version"
        = Option.none :=
  ⟨rfl, by decide, rfl⟩

/-- C9: the values stored under `transform`, `pca_method` and `svd_method`
are never tuples: any tuple passed there — whatever its contents — is
replaced by the fixed string `"NONE"` (for `transform`) or `"GramSVD"`
(for `pca_method`/`svd_method`). -/
theorem c9_normalized_values_never_tuples
    (m k mi s t u p ic im nv mi2 t2 s2 u2 sm v : PyVal)
    (hv : dictGet (H2OPCA.init m k mi s t u p ic im) "transform" = some v
        ∨ dictGet (H2OPCA.init m k mi s t u p ic im) "pca_method" = some v
        ∨ dictGet (H2OSVD.init nv mi2 t2 s2 u2 sm) "transform" = some v
        ∨ dictGet (H2OSVD.init nv mi2 t2 s2 u2 sm) "svd_method" = some v) :
    v.isTuple = false
    ∧ (t.isTuple = true →
        dictGet (H2OPCA.init m k mi s t u p ic im) "transform"
          = some (PyVal.str "NONE"))
    ∧ (p.isTuple = true →
        dictGet (H2OPCA.init m k mi s t u p ic im) "pca_method"
          = some (PyVal.str "GramSVD"))
    ∧ (t2.isTuple = true →
        dictGet (H2OSVD.init nv mi2 t2 s2 u2 sm) "transform"
          = some (PyVal.str "NONE"))
    ∧ (sm.isTuple = true →
        dictGet (H2OSVD.init nv mi2 t2 s2 u2 sm) "svd_method"
          = some (PyVal.str "GramSVD")) := by
  refine ⟨?_, fun ht => by simp [pca_get_transform, ht],
    fun hp => by simp [pca_get_pca_method, hp],
    fun ht2 => by simp [svd_get_transform, ht2],
    fun hsm => by simp [svd_get_svd_method, hsm]⟩
  rcases hv with h | h | h | h
  · rw [pca_get_transform] at h
    injection h with h
    rw [← h]
    exact isTuple_normalize t "NONE"
  · rw [pca_get_pca_method] at h
    injection h with h
    rw [← h]
    exact isTuple_normalize p "GramSVD"
  · rw [svd_get_transform] at h
    injection h with h
    rw [← h]
    exact isTuple_normalize t2 "NONE"
  · rw [svd_get_svd_method] at h
    injection h with h
    rw [← h]
    exact isTuple_normalize sm "GramSVD"

/-- Witness for C9: the value an `H2OPCA` built with the default tuples
stores under `transform` is not a tuple. -/
theorem c9_normalized_values_never_tuples_witness :
    PyVal.isTuple (PyVal.str "NONE") = false :=
  (c9_normalized_values_never_tuples PyVal.none PyVal.none PyVal.none
    PyVal.none H2OPCA.transformDefault (PyVal.bool false)
    H2OPCA.pcaMethodDefault (PyVal.bool true) (PyVal.bool false)
    PyVal.none PyVal.none PyVal.none PyVal.none PyVal.none PyVal.none
    (PyVal.str "NONE") (Or.inl (by decide))).1

/-- C10: the binding `self` from the `locals()` snapshot is filtered out:
the key `"self"` never appears in `_parms` after construction. -/
theorem c10_self_key_filtered_out
    (m k mi s t u p ic im nv mi2 t2 s2 u2 sm : PyVal) :
    dictGet (H2OPCA.init m k mi s t u p ic im) "self" = Option.none
    ∧ "self" ∉ dictKeys (H2OPCA.init m k mi s t u p ic im)
    ∧ dictGet (H2OSVD.init nv mi2 t2 s2 u2 sm) "self" = Option.none
    ∧ "self" ∉ dictKeys (H2OSVD.init nv mi2 t2 s2 u2 sm) := by
  refine ⟨rfl, ?_, rfl, ?_⟩
  · rw [pca_keys_init]
    decide
  · rw [svd_keys_init]
    decide
